import Mathlib

/-!
Verification of the assignment-and-rotation core of the crew coordination
repository.  The definitions below are shallow embeddings of the TypeScript
sources:

* `lib/services/rotation.ts` — `rotateCrews` / `calculateRotation` (the
  rotation planner),
* `lib/services/anchor-aware-crews.ts` — `getCrewAssignment`,
  `selectAnchorCrew`, `decideAnchorAssignment`, `selectSupportCrew`,
  `calculateDistance`,
* the anchor strategy service class — `planAnchorAwareRotation`,
  `findSafePrimaryZone`,
* `app/api/crew/route.ts` — the `GET` handler's decision structure.

Conventions: JS numbers holding ids/sizes are modeled as `ℕ`; the values of
`Math.random()` are explicit parameters (`rand : ℚ` for the rotation planner,
`rand : ℝ` for the assignment funnel) constrained to `[0, 1)` in theorems;
database reads are modeled as list arguments; floating point arithmetic of the
haversine distance is modeled over `ℝ`.  `Array.prototype.sort` (stable, per
ES2019) is modeled by a stable insertion sort `sortLe` on the same boolean
comparator.
-/

/-- Stable insertion into a list ordered by the boolean comparator `le`:
the new element goes in front of the first element it compares `le` to,
hence after every earlier element it ties with (stability). -/
def insertLe {α : Type} (le : α → α → Bool) (a : α) : List α → List α
  | [] => [a]
  | b :: l => if le a b then a :: b :: l else b :: insertLe le a l

/-- Stable insertion sort by a boolean comparator; models
`Array.prototype.sort(cmp)` for a total-preorder comparator. -/
def sortLe {α : Type} (le : α → α → Bool) : List α → List α
  | [] => []
  | a :: l => insertLe le a (sortLe le l)

/-! ## Rotation planner (`lib/services/rotation.ts`) -/

/-- `Zone` of `lib/config/zones.ts` as consumed by the rotation planner:
`id`, `name` and `type` (`primary`/`secondary`/`avoid`).  The `center`
coordinate exists in the source but is never read by `calculateRotation`,
so it is omitted here. -/
structure Zone where
  id : String
  name : String
  type : String
deriving DecidableEq

/-- `CrewLocation` of `rotation.ts`: one row of `current_crews`. -/
structure CrewLocation where
  crew_id : ℕ
  zone_id : String
  estimated_size : ℕ
deriving DecidableEq

/-- `RotationPlan` of `rotation.ts` (one entry of the rotation plan):
the target `zone_id` for `crew_id`, carrying the crew's size. -/
structure RotationPlan where
  crew_id : ℕ
  zone_id : String
  estimated_size : ℕ
deriving DecidableEq

/-- `getAssignableZones` of `lib/config/zones.ts`: every zone whose type is
not `avoid`. -/
def getAssignableZones (allZones : List Zone) : List Zone :=
  allZones.filter (fun zone => zone.type != "avoid")

/-- The `criticalZones` set built by `rotateCrews` from the non-expired
`police_activity` rows (`(zone_id, severity)` pairs). -/
def criticalZonesOf (policeActivity : List (String × String)) : List String :=
  (policeActivity.filter (fun a => a.2 == "critical")).map (fun a => a.1)

/-- The `dangerZones` set built by `rotateCrews`: zones with a `critical` or
`high` severity signal. -/
def dangerZonesOf (policeActivity : List (String × String)) : List String :=
  (policeActivity.filter (fun a => a.2 == "critical" || a.2 == "high")).map (fun a => a.1)

/-- Step 4 of `rotateCrews`: assignable zones excluding the critical ones. -/
def assignableZonesOf (zones : List Zone) (policeActivity : List (String × String)) :
    List Zone :=
  (getAssignableZones zones).filter (fun zone => !(criticalZonesOf policeActivity).contains zone.id)

/-- The anchor-identification loop of `calculateRotation`: the crew of
largest `estimated_size` whose current zone is found among the assignable
zones with type `primary` (`null` when there is none).  The fold state is
`(anchorCrewId, maxSize)` starting from `(null, 0)`. -/
def anchorCrewIdOf (currentCrews : List CrewLocation) (assignableZones : List Zone) :
    Option ℕ :=
  (currentCrews.foldl (fun st crew =>
    match assignableZones.find? (fun z => z.id == crew.zone_id) with
    | some zone =>
        if zone.type = "primary" ∧ st.2 < crew.estimated_size then
          (some crew.crew_id, crew.estimated_size)
        else st
    | none => st) ((none : Option ℕ), 0)).1

/-- `rotationPercentage = 0.4 + Math.random() * 0.2` and
`crewsToRotate = Math.ceil(rotatableCrews.length * rotationPercentage)`. -/
def crewsToRotateOf (n : ℕ) (rand : ℚ) : ℕ :=
  (Int.ceil ((n : ℚ) * (0.4 + rand * 0.2))).toNat

/-- The priority comparator of `calculateRotation` (`a` may come before `b`):
crews in danger zones first, then larger crews first.  This is the
boolean-comparator form of the JS comparator
`(a, b) => bInDanger - aInDanger || b.estimated_size - a.estimated_size`. -/
def crewPriorityLe (dangerZones : List String) (a b : CrewLocation) : Bool :=
  let aInDanger : ℕ := if dangerZones.contains a.zone_id then 1 else 0
  let bInDanger : ℕ := if dangerZones.contains b.zone_id then 1 else 0
  if aInDanger ≠ bInDanger then decide (bInDanger < aInDanger)
  else decide (b.estimated_size ≤ a.estimated_size)

/-- `usedZones.add(z)` on the JS `Set`, modeled on a duplicate-free list. -/
def addUsed (z : String) (used : List String) : List String :=
  if used.contains z then used else z :: used

/-- `Math.floor(r * pool.length)`: the random index into the zone pool. -/
def pickIdx (r : ℚ) (len : ℕ) : ℕ :=
  (Int.floor (r * (len : ℚ))).toNat

/-- The `availableZones` filter of the rotation loop: assignable zones not
yet used this cycle and different from the crew's current zone. -/
def availableZonesF (assignableZones : List Zone) (used : List String)
    (crew : CrewLocation) : List Zone :=
  assignableZones.filter (fun z => !used.contains z.id && z.id != crew.zone_id)

/-- The target zone computed for the crew at loop index `i` of
`calculateRotation`: if the crew is selected (`i < crewsToRotate` or it sits
in a danger zone) and an unused zone exists, a random pick preferring
secondary zones; otherwise the crew stays put. -/
def rotTarget (assignableZones : List Zone) (dangerZones : List String) (k : ℕ)
    (rs : ℕ → ℚ) (i : ℕ) (used : List String) (crew : CrewLocation) : String :=
  if decide (i < k) || dangerZones.contains crew.zone_id then
    let availableZones := availableZonesF assignableZones used crew
    if 0 < availableZones.length then
      let secondaryZones := availableZones.filter (fun z => z.type == "secondary")
      let zonePool := if 0 < secondaryZones.length then secondaryZones else availableZones
      (zonePool.getD (pickIdx (rs i) zonePool.length) ⟨"", "", ""⟩).id
    else crew.zone_id
  else crew.zone_id

/-- One iteration of the non-anchor loop of `calculateRotation`: state is
`(i, usedZones, rotationPlan)`. -/
def rotStep (assignableZones : List Zone) (dangerZones : List String) (k : ℕ)
    (rs : ℕ → ℚ) (st : ℕ × List String × List RotationPlan) (crew : CrewLocation) :
    ℕ × List String × List RotationPlan :=
  let targetZone := rotTarget assignableZones dangerZones k rs st.1 st.2.1 crew
  (st.1 + 1, addUsed targetZone st.2.1,
    st.2.2 ++ [⟨crew.crew_id, targetZone, crew.estimated_size⟩])

/-- The anchor block of `calculateRotation` (handled before the loop):
the anchor's plan entries and the zones it marks used.  In danger the anchor
goes to the first safe primary zone (no entry at all when none exists);
otherwise it stays in place. -/
def anchorPlanPart (currentCrews : List CrewLocation) (assignableZones : List Zone)
    (dangerZones : List String) : List RotationPlan × List String :=
  let anchorCrewId := anchorCrewIdOf currentCrews assignableZones
  match currentCrews.find? (fun c => some c.crew_id == anchorCrewId) with
  | some anchorCrew =>
    if dangerZones.contains anchorCrew.zone_id then
      match assignableZones.filter (fun z => z.type == "primary" && !dangerZones.contains z.id) with
      | newAnchorZone :: _ =>
          ([⟨anchorCrew.crew_id, newAnchorZone.id, anchorCrew.estimated_size⟩], [newAnchorZone.id])
      | [] => ([], [])
    else
      ([⟨anchorCrew.crew_id, anchorCrew.zone_id, anchorCrew.estimated_size⟩], [anchorCrew.zone_id])
  | none => ([], [])

/-- The non-anchor crews (`rotatableCrews` of `calculateRotation`). -/
def rotatableOf (currentCrews : List CrewLocation) (assignableZones : List Zone) :
    List CrewLocation :=
  currentCrews.filter (fun c => !(some c.crew_id == anchorCrewIdOf currentCrews assignableZones))

/-- `crewPriority`: the rotatable crews sorted danger-first, larger-first. -/
def sortedOthers (currentCrews : List CrewLocation) (assignableZones : List Zone)
    (dangerZones : List String) : List CrewLocation :=
  sortLe (crewPriorityLe dangerZones) (rotatableOf currentCrews assignableZones)

/-- The entries the non-anchor loop appends to the plan. -/
def supportPlan (currentCrews : List CrewLocation) (assignableZones : List Zone)
    (dangerZones : List String) (rand : ℚ) (rs : ℕ → ℚ) : List RotationPlan :=
  let k := crewsToRotateOf (rotatableOf currentCrews assignableZones).length rand
  ((sortedOthers currentCrews assignableZones dangerZones).foldl
    (rotStep assignableZones dangerZones k rs)
    (0, (anchorPlanPart currentCrews assignableZones dangerZones).2, [])).2.2

/-- `calculateRotation(currentCrews, assignableZones, dangerZones)`, with the
two random draws (`rand` for the rotation percentage, `rs i` for the zone
choice at loop index `i`) passed explicitly. -/
def calculateRotation (currentCrews : List CrewLocation) (assignableZones : List Zone)
    (dangerZones : List String) (rand : ℚ) (rs : ℕ → ℚ) : List RotationPlan :=
  (anchorPlanPart currentCrews assignableZones dangerZones).1 ++
    supportPlan currentCrews assignableZones dangerZones rand rs

/-- The plan produced by `rotateCrews` given the `current_crews` rows, the
zone catalog and the non-expired `police_activity` rows: it classifies the
signals, drops critical zones from the assignable set and calls
`calculateRotation`. -/
def rotateCrewsPlan (currentCrews : List CrewLocation) (zones : List Zone)
    (policeActivity : List (String × String)) (rand : ℚ) (rs : ℕ → ℚ) :
    List RotationPlan :=
  calculateRotation currentCrews (assignableZonesOf zones policeActivity)
    (dangerZonesOf policeActivity) rand rs

/-! ## Anchor strategy service (`AnchorCrewService`) -/

/-- The `strategy` fields of `AnchorCrewService` read by the rotation
planner method. -/
structure AnchorStrategy where
  anchorZoneId : Option ℕ
  anchorCrewId : Option ℕ
deriving DecidableEq

/-- A `current_crews` row with numeric zone id, as consumed by
`planAnchorAwareRotation`. -/
structure CrewPosition where
  crew_id : ℕ
  zone_id : ℕ
  estimated_size : ℕ
deriving DecidableEq

/-- A node of the `zoneGraph` map: the zone's type and its neighbor ids. -/
structure ZoneNode where
  ztype : String
  neighbors : List ℕ
deriving DecidableEq

/-- An entry of the plan returned by `planAnchorAwareRotation`. -/
structure AnchorRotationEntry where
  crew_id : ℕ
  from_zone_id : ℕ
  to_zone_id : ℕ
  walk_time : ℕ
  reason : String
deriving DecidableEq

/-- `findSafePrimaryZone`: the first neighbor of the current zone that is a
primary zone outside the danger set. -/
def findSafePrimaryZone (currentZoneId : ℕ) (zoneGraph : List (ℕ × ZoneNode))
    (dangerZones : List ℕ) : Option ℕ :=
  match zoneGraph.lookup currentZoneId with
  | none => none
  | some currentNode =>
    currentNode.neighbors.find? (fun neighborId =>
      match zoneGraph.lookup neighborId with
      | some neighbor => neighbor.ztype == "primary" && !dangerZones.contains neighborId
      | none => false)

/-- `planAnchorAwareRotation`, exactly as written in the source: the loop
first skips any crew equal to the anchor (`continue`), and only then — on the
same crew id — tests the emergency-relocation condition, so the emergency
branch pushing the `'ANCHOR EMERGENCY RELOCATION'` entry sits behind an
unsatisfiable guard; support crews have no push statement at all (the body is
a stub comment). -/
def planAnchorAwareRotation (strategy : AnchorStrategy) (currentCrews : List CrewPosition)
    (zoneGraph : List (ℕ × ZoneNode)) (dangerZones : List ℕ) : List AnchorRotationEntry :=
  currentCrews.foldl (fun rotationPlan crew =>
    if some crew.crew_id = strategy.anchorCrewId then
      rotationPlan
    else if some crew.crew_id = strategy.anchorCrewId ∧ crew.zone_id ∈ dangerZones then
      match findSafePrimaryZone crew.zone_id zoneGraph dangerZones with
      | some safeZone =>
          rotationPlan ++ [⟨crew.crew_id, crew.zone_id, safeZone, 5, "ANCHOR EMERGENCY RELOCATION"⟩]
      | none => rotationPlan
    else rotationPlan) []

/-! ## Distance (`calculateDistance`, haversine) -/

/-- `Math.atan2(y, x)` over the reals (JS/IEEE semantics on sign cases;
infinities and NaN are outside this model). -/
noncomputable def atan2 (y x : ℝ) : ℝ :=
  if 0 < x then Real.arctan (y / x)
  else if x < 0 then
    (if 0 ≤ y then Real.arctan (y / x) + Real.pi else Real.arctan (y / x) - Real.pi)
  else
    (if 0 < y then Real.pi / 2 else if y < 0 then -(Real.pi / 2) else 0)

/-- The intermediate value `a` of the haversine formula in
`calculateDistance`. -/
noncomputable def haversineA (lat1 lon1 lat2 lon2 : ℝ) : ℝ :=
  let dLat := (lat2 - lat1) * Real.pi / 180
  let dLon := (lon2 - lon1) * Real.pi / 180
  Real.sin (dLat / 2) * Real.sin (dLat / 2) +
    Real.cos (lat1 * Real.pi / 180) * Real.cos (lat2 * Real.pi / 180) *
      Real.sin (dLon / 2) * Real.sin (dLon / 2)

/-- `calculateDistance(lat1, lon1, lat2, lon2)`: haversine great-circle
distance in km with Earth radius 6371. -/
noncomputable def calculateDistance (lat1 lon1 lat2 lon2 : ℝ) : ℝ :=
  let R : ℝ := 6371
  let a := haversineA lat1 lon1 lat2 lon2
  let c := 2 * atan2 (Real.sqrt a) (Real.sqrt (1 - a))
  R * c

/-! ## Anchor-aware assignment (`lib/services/anchor-aware-crews.ts`) -/

/-- `MAX_CREWS` (env default `'20'`). -/
def MAX_CREWS : ℕ := 20

/-- `SUPPORT_CREW_SIZE` (150). -/
def SUPPORT_CREW_SIZE : ℕ := 150

/-- The zone columns selected by the `zones!inner` join. -/
structure ZoneRow where
  id : ℕ
  name : String
  ztype : String
  center_lat : ℝ
  center_lng : ℝ

/-- `CurrentCrew` of `anchor-aware-crews.ts`: a `current_crews` row with the
joined zone record. -/
structure CurrentCrew where
  crew_id : ℕ
  zone_id : ℕ
  estimated_size : ℕ
  zone : Option ZoneRow

/-- The module-level `anchorState`. -/
structure AnchorState where
  anchorCrewId : Option ℕ
  anchorZoneId : Option ℕ
  assignmentCount : ℕ

/-- The initialization step at the top of `getCrewAssignment`: a null anchor
is immediately re-defaulted to crew 1 at zone 1 (City Hall). -/
def initAnchor (st : AnchorState) : AnchorState :=
  match st.anchorCrewId with
  | none => { st with anchorCrewId := some 1, anchorZoneId := some 1 }
  | some _ => st

/-- The candidate filter of the `selectAnchorCrew` query:
`estimated_size > 100` and the joined zone has type `primary`. -/
def anchorCandidateFilter (c : CurrentCrew) : Bool :=
  (100 < c.estimated_size) &&
    (match c.zone with
     | some z => z.ztype == "primary"
     | none => false)

/-- The result rows of the `selectAnchorCrew` query: candidates ordered by
`estimated_size` descending, limited to 5. -/
def anchorCandidates (crews : List CurrentCrew) : List CurrentCrew :=
  (sortLe (fun a b => decide (b.estimated_size ≤ a.estimated_size))
    (crews.filter anchorCandidateFilter)).take 5

/-- The hardcoded list of strategic zone names. -/
def strategicZones : List String :=
  ["City Hall South Lawn", "Federal Building", "Grand Park"]

/-- The anchor score of a candidate crew: size band, strategic location and
stability bonus. -/
def anchorScore (st : AnchorState) (crew : CurrentCrew) : ℕ :=
  (if 500 ≤ crew.estimated_size ∧ crew.estimated_size ≤ 1000 then 50
   else if 1000 < crew.estimated_size then 40
   else if 200 ≤ crew.estimated_size then 30
   else 20) +
  (match crew.zone with
   | some z => if strategicZones.contains z.name then 40 else 0
   | none => 0) +
  (if some crew.crew_id = st.anchorCrewId then 20 else 0)

/-- `selectAnchorCrew`: with no candidate the anchor pointers are cleared;
otherwise the first strictly-best-scoring candidate becomes the anchor
(`bestScore` starts at 0, comparison is strict). -/
def selectAnchorCrew (st : AnchorState) (crews : List CurrentCrew) : AnchorState :=
  match anchorCandidates crews with
  | [] => { st with anchorCrewId := none, anchorZoneId := none }
  | c0 :: rest =>
    let best := (c0 :: rest).foldl (fun acc crew =>
        if acc.1 < anchorScore st crew then (anchorScore st crew, some crew) else acc)
      ((0 : ℕ), (none : Option CurrentCrew))
    match best.2 with
    | some bestCrew =>
        { st with anchorCrewId := some bestCrew.crew_id, anchorZoneId := some bestCrew.zone_id }
    | none => st

/-- `decideAnchorAssignment`: geographic gate first (both coordinates and a
resolvable preferred zone present), then the build/growth/sustain funnel.
`rand` is the value of the single `Math.random()` call a run can make. -/
noncomputable def decideAnchorAssignment (st : AnchorState) (zones : List ZoneRow)
    (currentCrews : List CurrentCrew) (preferredZoneId : Option ℕ)
    (userCoords : Option (ℝ × ℝ)) (rand : ℝ) : Bool :=
  match st.anchorCrewId with
  | none => false
  | some anchorCrewId =>
    match currentCrews.find? (fun c => c.crew_id == anchorCrewId) with
    | none => false
    | some anchorCrew =>
      let anchorSize := anchorCrew.estimated_size
      let gate : Option Bool :=
        match userCoords, preferredZoneId with
        | some uc, some pz =>
          match zones.find? (fun z => z.id == pz), anchorCrew.zone with
          | some userZone, some anchorZone =>
            let distanceToPreferredZone :=
              calculateDistance uc.1 uc.2 userZone.center_lat userZone.center_lng
            let distanceToAnchor :=
              calculateDistance uc.1 uc.2 anchorZone.center_lat anchorZone.center_lng
            if distanceToPreferredZone < 0.5 then some false
            else if 1.0 < distanceToAnchor then some false
            else none
          | _, _ => none
        | _, _ => none
      match gate with
      | some b => b
      | none =>
        if anchorSize < 500 then true
        else if anchorSize < 1000 then decide (rand < 0.5)
        else
          let sustainProbability : ℝ := max 0.1 (300 / (anchorSize : ℝ))
          match userCoords, anchorCrew.zone with
          | some uc, some anchorZone =>
            if calculateDistance uc.1 uc.2 anchorZone.center_lat anchorZone.center_lng < 0.2 then
              true
            else decide (rand < sustainProbability)
          | _, _ => decide (rand < sustainProbability)

/-- The tail of `selectSupportCrew` reached when the preferred-zone attempts
fall through (round-robin over crews with space when no zone preference, a
second new-crew attempt, the smallest-crew fallback, the constant final
fallback). -/
def selectSupportCrewRest (st : AnchorState) (supportCrews : List CurrentCrew)
    (currentCrews : List CurrentCrew) (preferredZoneId : Option ℕ) : ℕ × ℕ :=
  let availableCrews := supportCrews.filter (fun c => c.estimated_size < SUPPORT_CREW_SIZE)
  match availableCrews, preferredZoneId with
  | crew0 :: restAvail, none =>
    let crew := (crew0 :: restAvail).getD (st.assignmentCount % (crew0 :: restAvail).length) crew0
    (crew.crew_id, crew.zone_id)
  | _, _ =>
    match preferredZoneId with
    | some pz =>
      let maxCrewId := (currentCrews.map (fun c => c.crew_id)).foldl max 0
      let newCrewId := min (maxCrewId + 1) MAX_CREWS
      if newCrewId ≤ MAX_CREWS then (newCrewId, pz)
      else
        match supportCrews with
        | first :: rest =>
          let smallestCrew := rest.foldl
            (fun prev curr => if prev.estimated_size < curr.estimated_size then prev else curr) first
          (smallestCrew.crew_id, smallestCrew.zone_id)
        | [] => (2, pz)
    | none =>
      match supportCrews with
      | first :: rest =>
        let smallestCrew := rest.foldl
          (fun prev curr => if prev.estimated_size < curr.estimated_size then prev else curr) first
        (smallestCrew.crew_id, smallestCrew.zone_id)
      | [] => (2, 2)

/-- `selectSupportCrew(currentCrews, preferredZoneId)`, returning
`(crewId, zoneId)`.  With a preferred zone: first an existing non-anchor crew
there with space, else a crew id `min(maxCrewId + 1, MAX_CREWS)` at the
preferred zone (the guard `newCrewId <= MAX_CREWS` always holds because of
the `min`).  Without one, the `selectSupportCrewRest` fallbacks apply. -/
def selectSupportCrew (st : AnchorState) (currentCrews : List CurrentCrew)
    (preferredZoneId : Option ℕ) : ℕ × ℕ :=
  let supportCrews := currentCrews.filter (fun c => !(some c.crew_id == st.anchorCrewId))
  match preferredZoneId with
  | some pz =>
    let zoneCrews := supportCrews.filter
      (fun c => c.zone_id == pz && c.estimated_size < SUPPORT_CREW_SIZE)
    match zoneCrews with
    | crew :: _ => (crew.crew_id, crew.zone_id)
    | [] =>
      let maxCrewId := (currentCrews.map (fun c => c.crew_id)).foldl max 0
      let newCrewId := min (maxCrewId + 1) MAX_CREWS
      if newCrewId ≤ MAX_CREWS then (newCrewId, pz)
      else selectSupportCrewRest st supportCrews currentCrews (some pz)
  | none => selectSupportCrewRest st supportCrews currentCrews none

/-- The decision core of `getCrewAssignment`: initialize a null anchor to the
default (crew 1, zone 1), bump the assignment counter, run
`decideAnchorAssignment`, and produce `(targetCrewId, targetZoneId)` — the
anchor crew and its zone when the funnel says so, otherwise the support-crew
selection.  The 10-minute anchor re-evaluation (a timed database step) is
modeled separately by `selectAnchorCrew`. -/
noncomputable def getCrewTarget (st0 : AnchorState) (zones : List ZoneRow)
    (currentCrews : List CurrentCrew) (preferredZoneId : Option ℕ)
    (userCoords : Option (ℝ × ℝ)) (rand : ℝ) : ℕ × ℕ :=
  let st1 := initAnchor st0
  let st := { st1 with assignmentCount := st1.assignmentCount + 1 }
  let shouldJoinAnchor := decideAnchorAssignment st zones currentCrews preferredZoneId userCoords rand
  match st.anchorCrewId, shouldJoinAnchor with
  | some anchorCrewId, true =>
    (anchorCrewId,
      match currentCrews.find? (fun c => c.crew_id == anchorCrewId) with
      | some anchorCrew => anchorCrew.zone_id
      | none =>
        match preferredZoneId with
        | some pz => pz
        | none => 1)
  | _, _ => selectSupportCrew st currentCrews preferredZoneId

/-! ## API route (`app/api/crew/route.ts`, `GET`) -/

/-- The crew object of the API response (the `nextRotation` timestamp, a
wall-clock value, is omitted). -/
structure CrewAssignmentResp where
  crewId : ℕ
  crewName : String
  estimatedSize : ℕ
  zoneId : String
  zoneName : String
deriving DecidableEq

/-- The decision-relevant shape of the route's JSON response. -/
structure ApiResponse where
  status : ℕ
  success : Bool
  error : Option String
  crew : Option CrewAssignmentResp
deriving DecidableEq

/-- The hardcoded fallback assignment of the handler's catch block. -/
def fallbackCrew : CrewAssignmentResp :=
  ⟨1, "Crew 1", 150, "1", "City Hall"⟩

/-- The `GET /api/crew` handler's decision structure for an initial
assignment: `lat`/`lng` query parameters, the `find_nearby_zones` result,
and the outcome of `getCrewAssignment` (`none` models a thrown error caught
by the catch block). -/
def routeCrewGET (lat lng : Option ℝ) (nearbyZones : List ℕ)
    (assignment : Option CrewAssignmentResp) : ApiResponse :=
  match lat, lng with
  | some _, some _ =>
    if nearbyZones.isEmpty then
      ⟨403, false, some "You must be within walking distance of an active protest zone", none⟩
    else
      match assignment with
      | some a => ⟨200, true, none, some a⟩
      | none => ⟨500, false, some "Failed to assign crew", some fallbackCrew⟩
  | _, _ => ⟨403, false, some "Location required for crew assignment", none⟩

/-! ## Specification-side predicates for the rotation loop -/

/-- Correspondence between the crews processed by the rotation loop starting
at index `i` and the plan entries it appends: ids and sizes are copied, and
an entry moves (target differs from the crew's zone) exactly when the crew
is selected (`i < k` or its zone is dangerous). -/
def plansFor (k : ℕ) (dz : List String) : ℕ → List CrewLocation → List RotationPlan → Prop
  | _, [], [] => True
  | i, c :: cs, e :: es =>
      e.crew_id = c.crew_id ∧ e.estimated_size = c.estimated_size ∧
      ((i < k ∨ dz.contains c.zone_id = true) ↔ e.zone_id ≠ c.zone_id) ∧
      plansFor k dz (i + 1) cs es
  | _, _, _ => False

/-- The number of non-danger crews selected by the quota when processing the
list from index `i`. -/
def selCount (k : ℕ) (dz : List String) : ℕ → List CrewLocation → ℕ
  | _, [] => 0
  | i, c :: cs =>
      (if dz.contains c.zone_id = false ∧ i < k then 1 else 0) + selCount k dz (i + 1) cs

/-! ## Concrete scenarios used by counterexamples and witnesses -/

/-- C1 counterexample scenario: one crew, in a primary zone under a `high`
(not `critical`) severity signal. -/
def c1Crews : List CrewLocation := [⟨1, "Z1", 100⟩]

/-- Zones for the C1 scenario. -/
def c1Zones : List Zone := [⟨"Z1", "Zone One", "primary"⟩, ⟨"Z2", "Zone Two", "primary"⟩]

/-- Police activity for the C1 scenario: `high` severity at the anchor's
zone. -/
def c1Police : List (String × String) := [("Z1", "high")]

/-- C3 scenario: the anchor crew 1 sits at zone 5, flagged dangerous. -/
def c3Crews : List CrewPosition := [⟨1, 5, 300⟩]

/-- C3 zone graph: zone 5 has the safe primary neighbor 6. -/
def c3Graph : List (ℕ × ZoneNode) := [(5, ⟨"primary", [6]⟩), (6, ⟨"primary", []⟩)]

/-- C4 counterexample scenario: the anchor crew at a zone centered at the
pole, far from the participant at the origin. -/
def c4Crews : List CurrentCrew := [⟨1, 5, 100, some ⟨5, "City Hall", "primary", 90, 0⟩⟩]

/-- C4 witness scenario: anchor of size 300 (growth phase) at the distant
zone 5; the participant stands at the center of the preferred zone 7. -/
def c4wCrews : List CurrentCrew := [⟨1, 5, 300, some ⟨5, "City Hall", "primary", 90, 0⟩⟩]

/-- Zone table for the C4 witness: the preferred zone 7 at the origin. -/
def c4wZones : List ZoneRow := [⟨7, "Westwood", "secondary", 0, 0⟩]

/-- C5 counterexample scenario: anchor crew of size 700 (growth phase) whose
zone is centered at the origin. -/
def c5Crews : List CurrentCrew := [⟨1, 5, 700, some ⟨5, "Grand Park", "primary", 0, 0⟩⟩]

/-- C5 witness scenario: anchor crew of size 1200 (sustain phase) whose zone
is centered at the origin. -/
def c5wCrews : List CurrentCrew := [⟨1, 5, 1200, some ⟨5, "Grand Park", "primary", 0, 0⟩⟩]

/-- C6 scenario: crew 1 is the anchor (largest, primary zone); crews 2 and 3
are the rotatable others; zone `Z2` of crew 2 carries a danger signal. -/
def c6Crews : List CrewLocation := [⟨1, "Z1", 100⟩, ⟨2, "Z2", 50⟩, ⟨3, "Z3", 40⟩]

/-- Zones for the C6 scenarios: five assignable zones with distinct ids. -/
def c6Zones : List Zone :=
  [⟨"Z1", "Zone One", "primary"⟩, ⟨"Z2", "Zone Two", "primary"⟩,
   ⟨"Z3", "Zone Three", "primary"⟩, ⟨"Z4", "Zone Four", "secondary"⟩,
   ⟨"Z5", "Zone Five", "secondary"⟩]

/-- C7 scenario: non-anchor crews 1 (size 10, the least loaded) and 20
(size 180); nobody sits at the preferred zone 7. -/
def c7Crews : List CurrentCrew := [⟨1, 5, 10, none⟩, ⟨20, 6, 180, none⟩]

/-- C8 scenario: crew 1 sits in a primary zone but with size 50, below the
candidate floor of 100, so no anchor candidate exists. -/
def c8Crews : List CurrentCrew := [⟨1, 1, 50, some ⟨1, "City Hall", "primary", 0, 0⟩⟩]

/-- C10 witness scenario: a single crew staying in place. -/
def c10Crews : List CrewLocation := [⟨1, "Z1", 100⟩]

/-- Zones for the C10 witness. -/
def c10Zones : List Zone := [⟨"Z1", "Zone One", "primary"⟩]

/-! ## Distance lemmas -/

lemma haversineA_self (lat lon : ℝ) : haversineA lat lon lat lon = 0 := by
  simp [haversineA]

lemma haversineA_comm (lat1 lon1 lat2 lon2 : ℝ) :
    haversineA lat1 lon1 lat2 lon2 = haversineA lat2 lon2 lat1 lon1 := by
  simp only [haversineA]
  rw [show (lat1 - lat2) * Real.pi / 180 = -((lat2 - lat1) * Real.pi / 180) by ring,
    show (lon1 - lon2) * Real.pi / 180 = -((lon2 - lon1) * Real.pi / 180) by ring]
  simp only [neg_div, Real.sin_neg]
  ring

lemma calculateDistance_self (lat lon : ℝ) : calculateDistance lat lon lat lon = 0 := by
  simp only [calculateDistance, haversineA_self]
  norm_num [atan2, Real.arctan_zero]

lemma calculateDistance_comm (lat1 lon1 lat2 lon2 : ℝ) :
    calculateDistance lat1 lon1 lat2 lon2 = calculateDistance lat2 lon2 lat1 lon1 := by
  simp only [calculateDistance, haversineA_comm lat1 lon1 lat2 lon2]

lemma haversineA_pole : haversineA 0 0 90 0 = 1 / 2 := by
  simp only [haversineA]
  rw [show ((90 : ℝ) - 0) * Real.pi / 180 / 2 = Real.pi / 4 by ring,
    Real.sin_pi_div_four]
  norm_num
  rw [div_mul_div_comm, Real.mul_self_sqrt (by norm_num : (0:ℝ) ≤ 2)]
  norm_num

lemma calculateDistance_pole : calculateDistance 0 0 90 0 = 6371 * (Real.pi / 2) := by
  simp only [calculateDistance, haversineA_pole]
  rw [show (1 : ℝ) - 1 / 2 = 1 / 2 by norm_num]
  have hpos : 0 < Real.sqrt (1 / 2) := Real.sqrt_pos.mpr (by norm_num)
  simp only [atan2, if_pos hpos]
  rw [div_self (ne_of_gt hpos), Real.arctan_one]
  ring

lemma one_lt_calculateDistance_pole : 1 < calculateDistance 0 0 90 0 := by
  rw [calculateDistance_pole]
  nlinarith [Real.pi_gt_three]

/-- C9: `calculateDistance` is a pure symmetric distance with
`distanceKm(a, a) = 0`: for every coordinate pair the distance to itself is
zero, and for every two pairs the distance is symmetric in its arguments. -/
theorem C9_distance_zero_and_symmetric :
    (∀ lat lon : ℝ, calculateDistance lat lon lat lon = 0) ∧
    (∀ lat1 lon1 lat2 lon2 : ℝ,
      calculateDistance lat1 lon1 lat2 lon2 = calculateDistance lat2 lon2 lat1 lon1) :=
  ⟨calculateDistance_self, calculateDistance_comm⟩

/-- C2 counterexample: when the assignment computation fails (the catch
block of `GET /api/crew`), the 500 response does report `success: false`,
but it also carries the fabricated fallback assignment — crew 1 at City
Hall — contradicting the claim that a failure response contains no default
or fabricated crew assignment. -/
theorem C2_cex :
    routeCrewGET (some 0) (some 0) [1] none =
      ⟨500, false, some "Failed to assign crew", some fallbackCrew⟩ ∧
    fallbackCrew = ⟨1, "Crew 1", 150, "1", "City Hall"⟩ :=
  ⟨rfl, rfl⟩

/-- C2 (amended): missing coordinates yield a 403 rejection carrying no crew
assignment; an internal error yields a 500 response that reports the failure
but additionally carries the hardcoded fallback crew (crew 1 at City Hall)
in the error body. -/
theorem C2_failure_responses :
    (∀ (lng : Option ℝ) (nearby : List ℕ) (assignment : Option CrewAssignmentResp),
      routeCrewGET none lng nearby assignment =
        ⟨403, false, some "Location required for crew assignment", none⟩) ∧
    (∀ (lat : ℝ) (nearby : List ℕ) (assignment : Option CrewAssignmentResp),
      routeCrewGET (some lat) none nearby assignment =
        ⟨403, false, some "Location required for crew assignment", none⟩) ∧
    (∀ (lat lng : ℝ) (z : ℕ) (nearby : List ℕ),
      routeCrewGET (some lat) (some lng) (z :: nearby) none =
        ⟨500, false, some "Failed to assign crew", some fallbackCrew⟩) :=
  ⟨fun _ _ _ => rfl, fun _ _ _ => rfl, fun _ _ _ _ => rfl⟩

/-- C3 (code bug): with the anchor crew 1 at the dangerous zone 5 and the
safe primary neighbor zone 6 available (second conjunct), the rotation plan
of `planAnchorAwareRotation` is empty: the anchor gets no relocation entry
at all, because the loop `continue`s on the anchor before the emergency
branch can run, leaving the `'ANCHOR EMERGENCY RELOCATION'` push
unreachable — contradicting the documented emergency relocation. -/
theorem C3_emergency_branch_dead :
    planAnchorAwareRotation ⟨some 5, some 1⟩ c3Crews c3Graph [5] = [] ∧
    findSafePrimaryZone 5 c3Graph [5] = some 6 :=
  ⟨rfl, rfl⟩

/-! ## Support-crew selection lemmas -/

lemma le_foldl_max (l : List ℕ) (a : ℕ) : a ≤ l.foldl max a := by
  induction l generalizing a with
  | nil => exact le_refl a
  | cons b t ih => exact le_trans (le_max_left a b) (ih (max a b))

lemma mem_le_foldl_max (l : List ℕ) (a : ℕ) : ∀ x ∈ l, x ≤ l.foldl max a := by
  induction l generalizing a with
  | nil => intro x hx; cases hx
  | cons b t ih =>
    intro x hx
    rcases List.mem_cons.mp hx with h | h
    · subst h
      exact le_trans (le_max_right a x) (le_foldl_max t (max a x))
    · exact ih (max a b) x h

/-- C7 counterexample: crews 1 (size 10) and 20 (size 180) exist, nobody is
at the preferred zone 7, and all crew ids up to `MAX_CREWS` are taken
(`maxCrewId = 20`), so per the claim the least-loaded non-anchor crew —
crew 1 — should be chosen; the code instead clamps `maxCrewId + 1` to
`MAX_CREWS` and returns the existing crew id 20 placed at the preferred
zone. -/
theorem C7_cex :
    selectSupportCrew ⟨none, none, 0⟩ c7Crews (some 7) = (20, 7) ∧
    (c7Crews.map fun c => (c.crew_id, c.estimated_size)) = [(1, 10), (20, 180)] :=
  ⟨rfl, rfl⟩

/-- C7 (amended): for a support assignment with preferred zone `p`: an
existing non-anchor crew at `p` with `estimated_size < 150` is preferred
(the first such crew); if none exists, the crew id `min(maxCrewId + 1,
MAX_CREWS)` is assigned at zone `p` — a genuinely fresh crew id when
`maxCrewId < MAX_CREWS` (third conjunct), but a reuse of the existing id
`MAX_CREWS` otherwise; the globally-least-loaded fallback of the source is
unreachable when a preferred zone is declared. -/
theorem C7_preferred_zone_selection (st : AnchorState) (currentCrews : List CurrentCrew)
    (p : ℕ) :
    (∀ crew rest,
      ((currentCrews.filter fun c => !(some c.crew_id == st.anchorCrewId)).filter
          fun c => c.zone_id == p && c.estimated_size < SUPPORT_CREW_SIZE) = crew :: rest →
      selectSupportCrew st currentCrews (some p) = (crew.crew_id, crew.zone_id) ∧
      crew.zone_id = p ∧ crew.estimated_size < SUPPORT_CREW_SIZE ∧
      some crew.crew_id ≠ st.anchorCrewId) ∧
    (((currentCrews.filter fun c => !(some c.crew_id == st.anchorCrewId)).filter
          fun c => c.zone_id == p && c.estimated_size < SUPPORT_CREW_SIZE) = [] →
      selectSupportCrew st currentCrews (some p) =
        (min ((currentCrews.map fun c => c.crew_id).foldl max 0 + 1) MAX_CREWS, p)) ∧
    ((currentCrews.map fun c => c.crew_id).foldl max 0 < MAX_CREWS →
      ∀ c ∈ currentCrews,
        c.crew_id ≠ min ((currentCrews.map fun c => c.crew_id).foldl max 0 + 1) MAX_CREWS) := by
  refine ⟨?_, ?_, ?_⟩
  · intro crew rest hzc
    have hmem : crew ∈ ((currentCrews.filter fun c => !(some c.crew_id == st.anchorCrewId)).filter
        fun c => c.zone_id == p && c.estimated_size < SUPPORT_CREW_SIZE) := by
      rw [hzc]; exact List.mem_cons_self crew rest
    have hin := List.mem_filter.mp hmem
    have hout := List.mem_filter.mp hin.1
    have hpred := hin.2
    rw [Bool.and_eq_true] at hpred
    have hz : crew.zone_id = p := by
      have := hpred.1
      exact beq_iff_eq.mp this
    have hs : crew.estimated_size < SUPPORT_CREW_SIZE := of_decide_eq_true hpred.2
    have hna : some crew.crew_id ≠ st.anchorCrewId := by
      have := hout.2
      intro hEq
      rw [← hEq] at this
      simp at this
    refine ⟨?_, hz, hs, hna⟩
    simp only [selectSupportCrew, hzc]
  · intro hzc
    simp only [selectSupportCrew, hzc]
    rw [if_pos (min_le_right _ _)]
  · intro hmax c hc hEq
    have hle : c.crew_id ≤ (currentCrews.map fun c => c.crew_id).foldl max 0 :=
      mem_le_foldl_max _ 0 c.crew_id (List.mem_map_of_mem _ hc)
    rw [min_eq_left (by omega)] at hEq
    omega

/-- C7 witness: the amended selection applied to the concrete scenario with
no crew at the preferred zone. -/
theorem C7_preferred_zone_selection_witness :
    selectSupportCrew ⟨none, none, 0⟩ c7Crews (some 7) =
      (min ((c7Crews.map fun c => c.crew_id).foldl max 0 + 1) MAX_CREWS, 7) :=
  (C7_preferred_zone_selection ⟨none, none, 0⟩ c7Crews 7).2.1 rfl

/-! ## Funnel lemmas -/

/-- C5 counterexample: the anchor has size 700 (growth phase) and the
participant stands exactly at the anchor zone's center — distance 0, within
0.2 km (second conjunct) — yet with `Math.random() = 0.7` the funnel does
not route them to the anchor: the geographic boost applies only in the
sustain phase, so the routing probability here is 0.5, not 1.0. -/
theorem C5_cex :
    decideAnchorAssignment ⟨some 1, some 5, 0⟩ [] c5Crews none (some (0, 0)) 0.7 = false ∧
    calculateDistance 0 0 0 0 < 0.2 := by
  constructor
  · have hd : decide ((0.7 : ℝ) < 0.5) = false := by
      rw [decide_eq_false_iff_not]
      norm_num
    simp only [decideAnchorAssignment, c5Crews, List.find?, hd]
    norm_num
  · rw [calculateDistance_self]
    norm_num

/-- C5 (amended): with an anchor of size `S` designated and present, and no
geographic gate inputs (no preferred zone), the funnel routes to the anchor
with probability 1.0 for `S < 500`, probability 0.5 for `500 ≤ S < 1000`
(the outcome is `rand < 0.5`), and probability `max(0.1, 300/S)` for
`S ≥ 1000`; the 0.2 km geographic boost forces the routing only in the
sustain phase `S ≥ 1000` (it is not consulted in the build or growth
phases). -/
theorem C5_funnel_phases (st : AnchorState) (zones : List ZoneRow)
    (crews : List CurrentCrew) (a : ℕ) (ac : CurrentCrew) (rand : ℝ)
    (h1 : st.anchorCrewId = some a)
    (h2 : crews.find? (fun c => c.crew_id == a) = some ac) :
    (ac.estimated_size < 500 →
      decideAnchorAssignment st zones crews none none rand = true) ∧
    (500 ≤ ac.estimated_size → ac.estimated_size < 1000 →
      (decideAnchorAssignment st zones crews none none rand = true ↔ rand < 0.5)) ∧
    (1000 ≤ ac.estimated_size →
      (decideAnchorAssignment st zones crews none none rand = true ↔
        rand < max 0.1 (300 / (ac.estimated_size : ℝ)))) ∧
    (∀ (uc : ℝ × ℝ) (az : ZoneRow), 1000 ≤ ac.estimated_size → ac.zone = some az →
      calculateDistance uc.1 uc.2 az.center_lat az.center_lng < 0.2 →
      decideAnchorAssignment st zones crews none (some uc) rand = true) := by
  refine ⟨?_, ?_, ?_, ?_⟩
  · intro hs
    simp only [decideAnchorAssignment, h1, h2]
    rw [if_pos hs]
  · intro hs1 hs2
    simp only [decideAnchorAssignment, h1, h2]
    rw [if_neg (by omega), if_pos hs2]
    exact decide_eq_true_iff
  · intro hs
    simp only [decideAnchorAssignment, h1, h2]
    rw [if_neg (by omega), if_neg (by omega)]
    cases hz : ac.zone with
    | none => exact decide_eq_true_iff
    | some az => exact decide_eq_true_iff
  · intro uc az hs hz hdist
    simp only [decideAnchorAssignment, h1, h2, hz]
    rw [if_neg (by omega), if_neg (by omega), if_pos hdist]

/-- C5 witness: the amended funnel at a sustain-phase anchor of size 1200,
with the participant at the anchor zone's center and `rand = 0.7`. -/
theorem C5_funnel_phases_witness :
    decideAnchorAssignment ⟨some 1, some 5, 0⟩ [] c5wCrews none (some (0, 0)) 0.7 = true ∧
    calculateDistance 0 0 0 0 < 0.2 := by
  have hdist : calculateDistance 0 0 0 0 < 0.2 := by
    rw [calculateDistance_self]
    norm_num
  refine ⟨?_, hdist⟩
  exact (C5_funnel_phases ⟨some 1, some 5, 0⟩ [] c5wCrews 1
    ⟨1, 5, 1200, some ⟨5, "Grand Park", "primary", 0, 0⟩⟩ 0.7 rfl rfl).2.2.2
    (0, 0) ⟨5, "Grand Park", "primary", 0, 0⟩ (by norm_num) rfl hdist


/-! ## Geographic gate lemmas -/

lemma decideAA_gate_false (st : AnchorState) (zones : List ZoneRow)
    (crews : List CurrentCrew) (a p : ℕ) (ac : CurrentCrew) (az uz : ZoneRow)
    (uc : ℝ × ℝ) (rand : ℝ)
    (h1 : st.anchorCrewId = some a)
    (h2 : crews.find? (fun c => c.crew_id == a) = some ac)
    (h3 : ac.zone = some az)
    (h4 : zones.find? (fun z => z.id == p) = some uz)
    (hd : calculateDistance uc.1 uc.2 uz.center_lat uz.center_lng < 0.5 ∨
          1.0 < calculateDistance uc.1 uc.2 az.center_lat az.center_lng) :
    decideAnchorAssignment st zones crews (some p) (some uc) rand = false := by
  simp only [decideAnchorAssignment, h1, h2, h3, h4]
  by_cases hlt : calculateDistance uc.1 uc.2 uz.center_lat uz.center_lng < 0.5
  · rw [if_pos hlt]
  · rw [if_neg hlt, if_pos (hd.resolve_left hlt)]

lemma selectSupportCrew_zone (st : AnchorState) (currentCrews : List CurrentCrew)
    (p : ℕ) : (selectSupportCrew st currentCrews (some p)).2 = p := by
  cases hzc : ((currentCrews.filter fun c => !(some c.crew_id == st.anchorCrewId)).filter
      fun c => c.zone_id == p && c.estimated_size < SUPPORT_CREW_SIZE) with
  | nil =>
    have hres : selectSupportCrew st currentCrews (some p) =
        (min ((currentCrews.map fun c => c.crew_id).foldl max 0 + 1) MAX_CREWS, p) := by
      simp only [selectSupportCrew, hzc]
      rw [if_pos (min_le_right _ _)]
    rw [hres]
  | cons crew rest =>
    have hres : selectSupportCrew st currentCrews (some p) = (crew.crew_id, crew.zone_id) := by
      simp only [selectSupportCrew, hzc]
    have hmem : crew ∈ ((currentCrews.filter fun c => !(some c.crew_id == st.anchorCrewId)).filter
        fun c => c.zone_id == p && c.estimated_size < SUPPORT_CREW_SIZE) := by
      rw [hzc]; exact List.mem_cons_self crew rest
    have hpred := (List.mem_filter.mp hmem).2
    rw [Bool.and_eq_true] at hpred
    rw [hres]
    exact beq_iff_eq.mp hpred.1

lemma selectSupportCrew_not_anchor (st : AnchorState) (currentCrews : List CurrentCrew)
    (p a : ℕ)
    (h1 : st.anchorCrewId = some a)
    (ha : a ≤ (currentCrews.map fun c => c.crew_id).foldl max 0)
    (hmax : (currentCrews.map fun c => c.crew_id).foldl max 0 < MAX_CREWS) :
    (selectSupportCrew st currentCrews (some p)).1 ≠ a := by
  cases hzc : ((currentCrews.filter fun c => !(some c.crew_id == st.anchorCrewId)).filter
      fun c => c.zone_id == p && c.estimated_size < SUPPORT_CREW_SIZE) with
  | nil =>
    have hres : selectSupportCrew st currentCrews (some p) =
        (min ((currentCrews.map fun c => c.crew_id).foldl max 0 + 1) MAX_CREWS, p) := by
      simp only [selectSupportCrew, hzc]
      rw [if_pos (min_le_right _ _)]
    rw [hres]
    show min ((currentCrews.map fun c => c.crew_id).foldl max 0 + 1) MAX_CREWS ≠ a
    rw [min_eq_left (by omega)]
    omega
  | cons crew rest =>
    have hres : selectSupportCrew st currentCrews (some p) = (crew.crew_id, crew.zone_id) := by
      simp only [selectSupportCrew, hzc]
    have hmem : crew ∈ ((currentCrews.filter fun c => !(some c.crew_id == st.anchorCrewId)).filter
        fun c => c.zone_id == p && c.estimated_size < SUPPORT_CREW_SIZE) := by
      rw [hzc]; exact List.mem_cons_self crew rest
    have hout := (List.mem_filter.mp (List.mem_filter.mp hmem).1).2
    rw [hres]
    show crew.crew_id ≠ a
    intro hEq
    rw [hEq, h1] at hout
    simp at hout

lemma getCrewTarget_support (st0 : AnchorState) (zones : List ZoneRow)
    (crews : List CurrentCrew) (pz : Option ℕ) (uc : Option (ℝ × ℝ)) (rand : ℝ)
    (hdec : decideAnchorAssignment
      { initAnchor st0 with assignmentCount := (initAnchor st0).assignmentCount + 1 }
      zones crews pz uc rand = false) :
    getCrewTarget st0 zones crews pz uc rand =
      selectSupportCrew
        { initAnchor st0 with assignmentCount := (initAnchor st0).assignmentCount + 1 }
        crews pz := by
  simp only [getCrewTarget, hdec]
  cases (initAnchor st0).anchorCrewId <;> rfl

/-- C4 counterexample: coordinates are present but no preferred zone is
declared, so the geographic gate is skipped entirely; the anchor (size 100,
build phase) sits at a zone whose center is more than 1 km away from the
participant (second conjunct), yet the funnel routes the participant to the
anchor — contradicting the claim that a participant more than 1 km from the
anchor zone is never force-routed to the anchor whenever coordinates are
present. -/
theorem C4_cex :
    decideAnchorAssignment ⟨some 1, some 5, 0⟩ [] c4Crews none (some (0, 0)) 0 = true ∧
    1 < calculateDistance 0 0 90 0 :=
  ⟨rfl, one_lt_calculateDistance_pole⟩

/-- C4 (amended): the two geographic overrides hold only when, in addition
to coordinates, the participant declared a preferred zone that resolves in
the zone table, the anchor crew is present with zone info, and a fresh crew
id below `MAX_CREWS` is available: then a participant within 0.5 km of the
preferred zone gets a support assignment at that zone and is not routed to
the anchor crew, and a participant more than 1 km from the anchor zone is
likewise never routed to the anchor, in every funnel phase. -/
theorem C4_geo_override (st0 : AnchorState) (zones : List ZoneRow)
    (crews : List CurrentCrew) (a p : ℕ) (ac : CurrentCrew) (az uz : ZoneRow)
    (uc : ℝ × ℝ) (rand : ℝ)
    (h1 : st0.anchorCrewId = some a)
    (h2 : crews.find? (fun c => c.crew_id == a) = some ac)
    (h3 : ac.zone = some az)
    (h4 : zones.find? (fun z => z.id == p) = some uz)
    (h5 : (crews.map fun c => c.crew_id).foldl max 0 < MAX_CREWS) :
    (calculateDistance uc.1 uc.2 uz.center_lat uz.center_lng < 0.5 →
      decideAnchorAssignment st0 zones crews (some p) (some uc) rand = false ∧
      (getCrewTarget st0 zones crews (some p) (some uc) rand).2 = p ∧
      (getCrewTarget st0 zones crews (some p) (some uc) rand).1 ≠ a) ∧
    (1.0 < calculateDistance uc.1 uc.2 az.center_lat az.center_lng →
      decideAnchorAssignment st0 zones crews (some p) (some uc) rand = false ∧
      (getCrewTarget st0 zones crews (some p) (some uc) rand).2 = p ∧
      (getCrewTarget st0 zones crews (some p) (some uc) rand).1 ≠ a) := by
  have hinit : initAnchor st0 = st0 := by
    simp only [initAnchor, h1]
  have hac : (ac.crew_id == a) = true :=
    @List.find?_some CurrentCrew (fun c => c.crew_id == a) ac crews h2
  have ha : a ≤ (crews.map fun c => c.crew_id).foldl max 0 := by
    have hmm : ac.crew_id ∈ crews.map fun c => c.crew_id :=
      List.mem_map_of_mem _ (List.mem_of_find?_eq_some h2)
    rw [beq_iff_eq.mp hac] at hmm
    exact mem_le_foldl_max _ 0 a hmm
  have hst : ({ initAnchor st0 with
      assignmentCount := (initAnchor st0).assignmentCount + 1 } : AnchorState).anchorCrewId
      = some a := by
    rw [hinit]
    exact h1
  have key : (calculateDistance uc.1 uc.2 uz.center_lat uz.center_lng < 0.5 ∨
      1.0 < calculateDistance uc.1 uc.2 az.center_lat az.center_lng) →
      decideAnchorAssignment st0 zones crews (some p) (some uc) rand = false ∧
      (getCrewTarget st0 zones crews (some p) (some uc) rand).2 = p ∧
      (getCrewTarget st0 zones crews (some p) (some uc) rand).1 ≠ a := by
    intro hd
    have hdec0 : decideAnchorAssignment st0 zones crews (some p) (some uc) rand = false :=
      decideAA_gate_false st0 zones crews a p ac az uz uc rand h1 h2 h3 h4 hd
    have hdec : decideAnchorAssignment
        { initAnchor st0 with assignmentCount := (initAnchor st0).assignmentCount + 1 }
        zones crews (some p) (some uc) rand = false :=
      decideAA_gate_false _ zones crews a p ac az uz uc rand hst h2 h3 h4 hd
    have htgt := getCrewTarget_support st0 zones crews (some p) (some uc) rand hdec
    refine ⟨hdec0, ?_, ?_⟩
    · rw [htgt]
      exact selectSupportCrew_zone _ crews p
    · rw [htgt]
      exact selectSupportCrew_not_anchor _ crews p a hst ha h5
  exact ⟨fun hdl => key (Or.inl hdl), fun hdr => key (Or.inr hdr)⟩

/-- C4 witness: the amended overrides at a concrete growth-phase scenario —
the participant stands at the center of the resolvable preferred zone 7
(distance 0 < 0.5) while the anchor zone is more than 1 km away. -/
theorem C4_geo_override_witness :
    decideAnchorAssignment ⟨some 1, some 5, 0⟩ c4wZones c4wCrews (some 7) (some (0, 0)) 0 = false ∧
    (getCrewTarget ⟨some 1, some 5, 0⟩ c4wZones c4wCrews (some 7) (some (0, 0)) 0).2 = 7 ∧
    (getCrewTarget ⟨some 1, some 5, 0⟩ c4wZones c4wCrews (some 7) (some (0, 0)) 0).1 ≠ 1 ∧
    calculateDistance 0 0 0 0 < 0.5 ∧ 1 < calculateDistance 0 0 90 0 := by
  have hd1 : calculateDistance 0 0 0 0 < 0.5 := by
    rw [calculateDistance_self]
    norm_num
  have h := (C4_geo_override ⟨some 1, some 5, 0⟩ c4wZones c4wCrews 1 7
    ⟨1, 5, 300, some ⟨5, "City Hall", "primary", 90, 0⟩⟩
    ⟨5, "City Hall", "primary", 90, 0⟩ ⟨7, "Westwood", "secondary", 0, 0⟩
    (0, 0) 0 rfl rfl rfl rfl (by decide)).1 hd1
  exact ⟨h.1, h.2.1, h.2.2, hd1, one_lt_calculateDistance_pole⟩

/-! ## Anchor selection lemmas -/

lemma anchorCandidates_nil (crews : List CurrentCrew)
    (h : ∀ c ∈ crews, anchorCandidateFilter c = false) : anchorCandidates crews = [] := by
  have hfil : crews.filter anchorCandidateFilter = [] := by
    rw [List.filter_eq_nil_iff]
    intro c hc
    rw [h c hc]
    exact Bool.false_ne_true
  simp only [anchorCandidates, hfil]
  rfl

/-- C8 counterexample: crew 1 sits in a primary zone with size 50 (below the
candidate floor), so `selectAnchorCrew` clears the anchor designation (first
conjunct); yet the very next assignment does not operate with "no anchor":
`getCrewAssignment` re-defaults the anchor to crew 1 at zone 1 and routes the
participant to that default anchor crew and zone (second conjunct),
contradicting the claim that subsequent assignments are not routed to any
default anchor crew or zone. -/
theorem C8_cex :
    (selectAnchorCrew ⟨some 1, some 1, 0⟩ c8Crews).anchorCrewId = none ∧
    getCrewTarget (selectAnchorCrew ⟨some 1, some 1, 0⟩ c8Crews) [] c8Crews none none 0 =
      (1, 1) :=
  ⟨rfl, rfl⟩

/-- C8 (amended): when no crew in a primary-type zone exceeds the size floor
of 100, `selectAnchorCrew` indeed clears the anchor designation (both
pointers become `none`); but the assignment engine does not treat "no
anchor" as a steady state: `getCrewAssignment` re-initializes a null anchor
to the default crew 1 at zone 1, and when crew 1 exists with size below 500
(build phase) it routes the participant to that default anchor crew and its
zone. -/
theorem C8_no_anchor_default (st : AnchorState) (crews : List CurrentCrew) :
    ((∀ c ∈ crews, anchorCandidateFilter c = false) →
      (selectAnchorCrew st crews).anchorCrewId = none ∧
      (selectAnchorCrew st crews).anchorZoneId = none) ∧
    (st.anchorCrewId = none →
      (initAnchor st).anchorCrewId = some 1 ∧ (initAnchor st).anchorZoneId = some 1) ∧
    (∀ (zones : List ZoneRow) (c : CurrentCrew) (rand : ℝ),
      st.anchorCrewId = none →
      crews.find? (fun cr => cr.crew_id == 1) = some c →
      c.estimated_size < 500 →
      getCrewTarget st zones crews none none rand = (1, c.zone_id)) := by
  refine ⟨?_, ?_, ?_⟩
  · intro h
    rw [show selectAnchorCrew st crews =
        { st with anchorCrewId := none, anchorZoneId := none } by
      simp only [selectAnchorCrew, anchorCandidates_nil crews h]]
    exact ⟨rfl, rfl⟩
  · intro hnone
    simp only [initAnchor, hnone]
    trivial
  · intro zones c rand hnone h2 hsize
    have hdec : decideAnchorAssignment ⟨some 1, some 1, st.assignmentCount + 1⟩
        zones crews none none rand = true := by
      simp only [decideAnchorAssignment, h2]
      rw [if_pos hsize]
    simp only [getCrewTarget, initAnchor, hnone, hdec, h2]

/-- C8 witness: the amended statement applied to the concrete
candidate-free scenario (crew 1 at a primary zone with size 50). -/
theorem C8_no_anchor_default_witness :
    (selectAnchorCrew ⟨none, none, 5⟩ c8Crews).anchorCrewId = none ∧
    getCrewTarget ⟨none, none, 5⟩ [] c8Crews none none 0 = (1, 1) := by
  have h := C8_no_anchor_default ⟨none, none, 5⟩ c8Crews
  refine ⟨(h.1 ?_).1, ?_⟩
  · intro c hc
    have : c = ⟨1, 1, 50, some ⟨1, "City Hall", "primary", 0, 0⟩⟩ := by
      cases hc with
      | head => rfl
      | tail _ h2 => cases h2
    rw [this]
    rfl
  · exact h.2.2 [] ⟨1, 1, 50, some ⟨1, "City Hall", "primary", 0, 0⟩⟩ 0 rfl rfl (by norm_num)

/-! ## Sorting lemmas -/

lemma insertLe_perm {α : Type} (le : α → α → Bool) (a : α) (l : List α) :
    (insertLe le a l).Perm (a :: l) := by
  induction l with
  | nil => exact List.Perm.refl _
  | cons b t ih =>
    simp only [insertLe]
    by_cases h : le a b = true
    · rw [if_pos h]
    · rw [if_neg h]
      exact ((ih.cons b).trans (List.Perm.swap a b t))

lemma sortLe_perm {α : Type} (le : α → α → Bool) (l : List α) :
    (sortLe le l).Perm l := by
  induction l with
  | nil => exact List.Perm.refl _
  | cons a t ih =>
    exact (insertLe_perm le a (sortLe le t)).trans (ih.cons a)

lemma mem_insertLe {α : Type} (le : α → α → Bool) (a x : α) (l : List α) :
    x ∈ insertLe le a l ↔ x = a ∨ x ∈ l := by
  rw [(insertLe_perm le a l).mem_iff]
  exact List.mem_cons

lemma pairwise_insertLe {α : Type} (le : α → α → Bool)
    (htot : ∀ a b, le a b = true ∨ le b a = true)
    (htrans : ∀ a b c, le a b = true → le b c = true → le a c = true)
    (a : α) (l : List α) (h : l.Pairwise (fun x y => le x y = true)) :
    (insertLe le a l).Pairwise (fun x y => le x y = true) := by
  induction l with
  | nil => exact List.pairwise_singleton _ a
  | cons b t ih =>
    rcases List.pairwise_cons.mp h with ⟨hb, ht⟩
    by_cases hab : le a b = true
    · simp only [insertLe, if_pos hab]
      refine List.pairwise_cons.mpr ⟨?_, h⟩
      intro x hx
      rcases List.mem_cons.mp hx with hxb | hxt
      · rw [hxb]; exact hab
      · exact htrans a b x hab (hb x hxt)
    · simp only [insertLe, if_neg hab]
      refine List.pairwise_cons.mpr ⟨?_, ih ht⟩
      intro x hx
      rcases (mem_insertLe le a x t).mp hx with hxa | hxt
      · rw [hxa]
        exact (htot a b).resolve_left hab
      · exact hb x hxt

lemma pairwise_sortLe {α : Type} (le : α → α → Bool)
    (htot : ∀ a b, le a b = true ∨ le b a = true)
    (htrans : ∀ a b c, le a b = true → le b c = true → le a c = true)
    (l : List α) : (sortLe le l).Pairwise (fun x y => le x y = true) := by
  induction l with
  | nil => exact List.Pairwise.nil
  | cons a t ih => exact pairwise_insertLe le htot htrans a (sortLe le t) ih

/-! ## Priority comparator lemmas -/

lemma crewPriorityLe_total (dz : List String) (a b : CrewLocation) :
    crewPriorityLe dz a b = true ∨ crewPriorityLe dz b a = true := by
  by_cases ha : a.zone_id ∈ dz <;> by_cases hb : b.zone_id ∈ dz <;>
    simp [crewPriorityLe, ha, hb] <;> omega

lemma crewPriorityLe_trans (dz : List String) (a b c : CrewLocation) :
    crewPriorityLe dz a b = true → crewPriorityLe dz b c = true →
    crewPriorityLe dz a c = true := by
  by_cases ha : a.zone_id ∈ dz <;> by_cases hb : b.zone_id ∈ dz <;>
    by_cases hc : c.zone_id ∈ dz <;> simp [crewPriorityLe, ha, hb, hc] <;> omega

lemma crewPriorityLe_danger (dz : List String) (a b : CrewLocation) :
    crewPriorityLe dz a b = true → dz.contains b.zone_id = true →
    dz.contains a.zone_id = true := by
  by_cases ha : a.zone_id ∈ dz <;> by_cases hb : b.zone_id ∈ dz <;>
    simp [crewPriorityLe, ha, hb]

lemma sortedOthers_pairwise_danger (currentCrews : List CrewLocation)
    (A : List Zone) (dz : List String) :
    (sortedOthers currentCrews A dz).Pairwise
      (fun a b => dz.contains b.zone_id = true → dz.contains a.zone_id = true) :=
  (pairwise_sortLe (crewPriorityLe dz) (crewPriorityLe_total dz)
    (crewPriorityLe_trans dz) (rotatableOf currentCrews A)).imp
    (fun hab hb => crewPriorityLe_danger dz _ _ hab hb)

/-! ## Rotation loop lemmas -/

lemma contains_true_iff {α : Type} [BEq α] [LawfulBEq α] (l : List α) (x : α) :
    l.contains x = true ↔ x ∈ l := by
  simp [List.contains, List.elem_iff]

lemma addUsed_length (z : String) (used : List String) :
    (addUsed z used).length ≤ used.length + 1 := by
  simp only [addUsed]
  split_ifs <;> simp

lemma length_availableZonesF (A : List Zone) (used : List String) (crew : CrewLocation)
    (hA : (A.map Zone.id).Nodup) :
    A.length ≤ (availableZonesF A used crew).length + (used.length + 1) := by
  have hperm := List.filter_append_perm
    (fun z => !used.contains z.id && z.id != crew.zone_id) A
  have hlen : (availableZonesF A used crew).length
      + (A.filter fun z => !(!used.contains z.id && z.id != crew.zone_id)).length
      = A.length := by
    have h := hperm.length_eq
    rw [List.length_append] at h
    exact h
  have hsub : ((A.filter fun z => !(!used.contains z.id && z.id != crew.zone_id)).map Zone.id)
      ⊆ crew.zone_id :: used := by
    intro x hx
    rcases List.mem_map.mp hx with ⟨z, hz, hzx⟩
    have hmem := (List.mem_filter.mp hz).2
    by_cases hc : used.contains z.id = true
    · exact List.mem_cons_of_mem _ (hzx ▸ (contains_true_iff used z.id).mp hc)
    · have hc2 : used.contains z.id = false := by
        revert hc
        cases used.contains z.id <;> simp
      rw [hc2] at hmem
      simp only [Bool.not_false, Bool.true_and, Bool.not_eq_true] at hmem
      have hzc : z.id = crew.zone_id := by
        revert hmem
        by_cases hbe : z.id = crew.zone_id
        · intro _; exact hbe
        · rw [show (z.id != crew.zone_id) = true from (bne_iff_ne).mpr hbe]
          intro h
          cases h
      rw [← hzx, hzc]
      exact List.mem_cons_self _ _
  have hnodup : ((A.filter fun z => !(!used.contains z.id && z.id != crew.zone_id)).map
      Zone.id).Nodup :=
    List.Nodup.sublist ((List.filter_sublist A).map Zone.id) hA
  have hle := (List.subperm_of_subset hnodup hsub).length_le
  rw [List.length_map, List.length_cons] at hle
  omega

lemma rotTarget_stay (A : List Zone) (dz : List String) (k : ℕ) (rs : ℕ → ℚ)
    (i : ℕ) (used : List String) (crew : CrewLocation)
    (hsel : (decide (i < k) || dz.contains crew.zone_id) = false) :
    rotTarget A dz k rs i used crew = crew.zone_id := by
  simp only [rotTarget]
  rw [hsel]
  simp

lemma rotTarget_sel_ne (A : List Zone) (dz : List String) (k : ℕ) (rs : ℕ → ℚ)
    (i : ℕ) (used : List String) (crew : CrewLocation)
    (hA : (A.map Zone.id).Nodup)
    (hr0 : 0 ≤ rs i) (hr1 : rs i < 1)
    (hcap : used.length + 2 ≤ A.length)
    (hsel : (decide (i < k) || dz.contains crew.zone_id) = true) :
    rotTarget A dz k rs i used crew ≠ crew.zone_id := by
  have hav : 0 < (availableZonesF A used crew).length := by
    have := length_availableZonesF A used crew hA
    omega
  have hpool_pos : 0 <
      (if 0 < ((availableZonesF A used crew).filter fun z => z.type == "secondary").length
       then (availableZonesF A used crew).filter fun z => z.type == "secondary"
       else availableZonesF A used crew).length := by
    split_ifs with h
    · exact h
    · exact hav
  have hpool_sub : ∀ z ∈
      (if 0 < ((availableZonesF A used crew).filter fun z => z.type == "secondary").length
       then (availableZonesF A used crew).filter fun z => z.type == "secondary"
       else availableZonesF A used crew), z ∈ availableZonesF A used crew := by
    intro z hz
    split_ifs at hz with h
    · exact (List.mem_filter.mp hz).1
    · exact hz
  have hidx : ∀ pool : List Zone, 0 < pool.length →
      pickIdx (rs i) pool.length < pool.length := by
    intro pool hp
    simp only [pickIdx]
    have h0 : (0:ℤ) ≤ ⌊rs i * (pool.length : ℚ)⌋ :=
      Int.floor_nonneg.mpr (mul_nonneg hr0 (by positivity))
    rw [Int.toNat_lt h0]
    apply Int.floor_lt.mpr
    push_cast
    have hlt : rs i * (pool.length : ℚ) < 1 * (pool.length : ℚ) := by
      apply mul_lt_mul_of_pos_right hr1
      exact_mod_cast hp
    simpa using hlt
  simp only [rotTarget, hsel, if_true]
  rw [if_pos hav]
  have hplt := hidx _ hpool_pos
  rw [List.getD_eq_getElem _ _ hplt]
  have hmem := hpool_sub _ (List.getElem_mem hplt)
  have hpred := (List.mem_filter.mp hmem).2
  rw [Bool.and_eq_true] at hpred
  exact (bne_iff_ne).mp hpred.2

lemma foldl_rotStep_entries (A : List Zone) (dz : List String) (k : ℕ) (rs : ℕ → ℚ) :
    ∀ (L : List CrewLocation) (st : ℕ × List String × List RotationPlan)
      (e : RotationPlan),
      e ∈ (List.foldl (rotStep A dz k rs) st L).2.2 →
      e ∈ st.2.2 ∨ ∃ c ∈ L, e.crew_id = c.crew_id ∧ e.estimated_size = c.estimated_size := by
  intro L
  induction L with
  | nil => intro st e he; exact Or.inl he
  | cons c cs ih =>
    intro st e he
    rcases ih (rotStep A dz k rs st c) e he with hacc | ⟨c2, hc2, hid, hsz⟩
    · simp only [rotStep] at hacc
      rcases List.mem_append.mp hacc with h1 | h2
      · exact Or.inl h1
      · rcases List.mem_singleton.mp h2 with rfl
        exact Or.inr ⟨c, List.mem_cons_self c cs, rfl, rfl⟩
    · exact Or.inr ⟨c2, List.mem_cons_of_mem c hc2, hid, hsz⟩

lemma foldl_rotStep_spec (A : List Zone) (dz : List String) (k : ℕ) (rs : ℕ → ℚ)
    (hA : (A.map Zone.id).Nodup) (hrs : ∀ i, 0 ≤ rs i ∧ rs i < 1) :
    ∀ (L : List CrewLocation) (i : ℕ) (used : List String) (acc : List RotationPlan),
      used.length ≤ 1 + i → i + L.length + 2 ≤ A.length →
      ∃ used2 entries,
        List.foldl (rotStep A dz k rs) (i, used, acc) L = (i + L.length, used2, acc ++ entries)
          ∧ plansFor k dz i L entries := by
  intro L
  induction L with
  | nil =>
    intro i used acc _ _
    exact ⟨used, [], by simp, trivial⟩
  | cons c cs ih =>
    intro i used acc hu hcap
    have hcap2 : (i + 1) + cs.length + 2 ≤ A.length := by
      simp only [List.length_cons] at hcap
      omega
    have hu2 : (addUsed (rotTarget A dz k rs i used c) used).length ≤ 1 + (i + 1) := by
      have := addUsed_length (rotTarget A dz k rs i used c) used
      omega
    obtain ⟨used2, entries, heq, hpf⟩ :=
      ih (i + 1) (addUsed (rotTarget A dz k rs i used c) used)
        (acc ++ [(⟨c.crew_id, rotTarget A dz k rs i used c, c.estimated_size⟩ : RotationPlan)])
        hu2 hcap2
    have hiff : (i < k ∨ dz.contains c.zone_id = true) ↔
        rotTarget A dz k rs i used c ≠ c.zone_id := by
      by_cases hsel : (decide (i < k) || dz.contains c.zone_id) = true
      · have hne := rotTarget_sel_ne A dz k rs i used c hA
          (hrs i).1 (hrs i).2 (by simp only [List.length_cons] at hcap; omega) hsel
        rw [Bool.or_eq_true] at hsel
        constructor
        · intro _; exact hne
        · intro _
          rcases hsel with h | h
          · exact Or.inl (of_decide_eq_true h)
          · exact Or.inr h
      · have hsel2 : (decide (i < k) || dz.contains c.zone_id) = false := by
          revert hsel
          cases (decide (i < k) || dz.contains c.zone_id) <;> simp
        have hstay := rotTarget_stay A dz k rs i used c hsel2
        rw [Bool.or_eq_false_iff] at hsel2
        constructor
        · intro habs
          rcases habs with h | h
          · rw [decide_eq_true h] at hsel2
            exact Bool.noConfusion hsel2.1
          · rw [h] at hsel2
            exact Bool.noConfusion hsel2.2
        · intro hne
          exact absurd hstay hne
    refine ⟨used2,
      (⟨c.crew_id, rotTarget A dz k rs i used c, c.estimated_size⟩ : RotationPlan) :: entries,
      ?_, ?_⟩
    · have hstep : List.foldl (rotStep A dz k rs) (i, used, acc) (c :: cs)
          = List.foldl (rotStep A dz k rs)
            (i + 1, addUsed (rotTarget A dz k rs i used c) used,
              acc ++ [(⟨c.crew_id, rotTarget A dz k rs i used c, c.estimated_size⟩ :
                RotationPlan)]) cs := rfl
      rw [hstep, heq]
      simp only [Prod.mk.injEq, List.append_assoc, List.singleton_append, List.length_cons,
        and_true, eq_self_iff_true]
      omega
    · exact ⟨rfl, rfl, hiff, hpf⟩

/-! ## Counting lemmas for the rotation quota -/

lemma plansFor_length (k : ℕ) (dz : List String) :
    ∀ (L : List CrewLocation) (i : ℕ) (E : List RotationPlan),
      plansFor k dz i L E → E.length = L.length := by
  intro L
  induction L with
  | nil =>
    intro i E h
    cases E with
    | nil => rfl
    | cons e es => exact (h : False).elim
  | cons c cs ih =>
    intro i E h
    cases E with
    | nil => exact (h : False).elim
    | cons e es =>
      obtain ⟨_, _, _, h4⟩ := h
      simp [List.length_cons, ih (i + 1) es h4]

lemma plansFor_danger_moved (k : ℕ) (dz : List String) :
    ∀ (L : List CrewLocation) (i : ℕ) (E : List RotationPlan),
      plansFor k dz i L E →
      ∀ pr ∈ L.zip E, dz.contains pr.1.zone_id = true → pr.2.zone_id ≠ pr.1.zone_id := by
  intro L
  induction L with
  | nil => intro i E _ pr hpr; simp at hpr
  | cons c cs ih =>
    intro i E h pr hpr
    cases E with
    | nil => exact (h : False).elim
    | cons e es =>
      obtain ⟨_, _, h3, h4⟩ := h
      rcases List.mem_cons.mp hpr with rfl | htail
      · intro hdz
        exact h3.mp (Or.inr hdz)
      · exact ih (i + 1) es h4 pr htail

lemma plansFor_count (k : ℕ) (dz : List String) :
    ∀ (L : List CrewLocation) (i : ℕ) (E : List RotationPlan),
      plansFor k dz i L E →
      (L.zip E).countP (fun pr => !dz.contains pr.1.zone_id && pr.2.zone_id != pr.1.zone_id)
        = selCount k dz i L := by
  intro L
  induction L with
  | nil =>
    intro i E h
    cases E with
    | nil => rfl
    | cons e es => exact (h : False).elim
  | cons c cs ih =>
    intro i E h
    cases E with
    | nil => exact (h : False).elim
    | cons e es =>
      obtain ⟨_, _, h3, h4⟩ := h
      have htail := ih (i + 1) es h4
      simp only [List.zip_cons_cons, List.countP_cons, htail, selCount]
      rcases Bool.eq_false_or_eq_true (dz.contains c.zone_id) with hc | hc
      · have hm : c.zone_id ∈ dz := (contains_true_iff dz c.zone_id).mp hc
        simp [hm, hc] <;> omega
      · have hnm : c.zone_id ∉ dz := by
          intro hm
          have h5 := (contains_true_iff dz c.zone_id).mpr hm
          rw [hc] at h5
          cases h5
        by_cases hik : i < k
        · have hne : e.zone_id ≠ c.zone_id := h3.mp (Or.inl hik)
          simp [hnm, hik, hne, hc] <;> omega
        · have heq : e.zone_id = c.zone_id := by
            by_contra hne
            rcases h3.mpr hne with h | h
            · exact hik h
            · rw [hc] at h
              cases h
          simp [hnm, hik, heq, hc] <;> omega

lemma selCount_nondanger (k : ℕ) (dz : List String) :
    ∀ (N : List CrewLocation), (∀ c ∈ N, dz.contains c.zone_id = false) →
      ∀ i, selCount k dz i N = min (k - i) N.length := by
  intro N
  induction N with
  | nil => intro _ i; simp [selCount]
  | cons c cs ih =>
    intro h i
    have hc := h c (List.mem_cons_self c cs)
    have hcs := fun b hb => h b (List.mem_cons_of_mem c hb)
    simp only [selCount, ih hcs (i + 1), List.length_cons]
    by_cases hik : i < k
    · rw [if_pos ⟨hc, hik⟩]
      omega
    · rw [if_neg (by tauto)]
      omega

lemma selCount_prefix_danger (k : ℕ) (dz : List String) :
    ∀ (D N : List CrewLocation), (∀ c ∈ D, dz.contains c.zone_id = true) →
      ∀ i, selCount k dz i (D ++ N) = selCount k dz (i + D.length) N := by
  intro D
  induction D with
  | nil => intro N _ i; simp
  | cons c ds ih =>
    intro N h i
    have hc := h c (List.mem_cons_self c ds)
    have hstep : selCount k dz i ((c :: ds) ++ N)
        = (if dz.contains c.zone_id = false ∧ i < k then 1 else 0)
          + selCount k dz (i + 1) (ds ++ N) := rfl
    rw [hstep, if_neg ?hp1, ih N (fun b hb => h b (List.mem_cons_of_mem c hb)) (i + 1)]
    · have harith : i + 1 + ds.length = i + (c :: ds).length := by
        simp only [List.length_cons]
        omega
      rw [harith]
      omega
    case hp1 =>
      intro habs
      rw [hc] at habs
      exact Bool.noConfusion habs.1

lemma danger_split (dz : List String) :
    ∀ (L : List CrewLocation),
      L.Pairwise (fun a b => dz.contains b.zone_id = true → dz.contains a.zone_id = true) →
      ∃ D N, L = D ++ N ∧ (∀ c ∈ D, dz.contains c.zone_id = true) ∧
        (∀ c ∈ N, dz.contains c.zone_id = false) ∧
        D.length = L.countP (fun c => dz.contains c.zone_id) := by
  intro L
  induction L with
  | nil => exact fun _ => ⟨[], [], rfl, by simp, by simp, by simp⟩
  | cons c cs ih =>
    intro hp
    rcases List.pairwise_cons.mp hp with ⟨hc, hcs⟩
    by_cases hcd : dz.contains c.zone_id = true
    · obtain ⟨D, N, hsplit, hD, hN, hlen⟩ := ih hcs
      refine ⟨c :: D, N, by rw [List.cons_append, hsplit], ?_, hN, ?_⟩
      · intro b hb
        rcases List.mem_cons.mp hb with rfl | hb2
        · exact hcd
        · exact hD b hb2
      · rw [List.countP_cons, if_pos hcd, List.length_cons, hlen]
    · have hcd2 : dz.contains c.zone_id = false := by
        revert hcd
        cases dz.contains c.zone_id <;> simp
      have hall : ∀ b ∈ cs, dz.contains b.zone_id = false := by
        intro b hb
        by_cases hb2 : dz.contains b.zone_id = true
        · exact absurd (hc b hb hb2) hcd
        · revert hb2
          cases dz.contains b.zone_id <;> simp
      refine ⟨[], c :: cs, rfl, by simp, ?_, ?_⟩
      · intro b hb
        rcases List.mem_cons.mp hb with rfl | hb2
        · exact hcd2
        · exact hall b hb2
      · simp only [List.length_nil]
        symm
        rw [List.countP_eq_zero]
        intro b hb
        rcases List.mem_cons.mp hb with rfl | hb2
        · rw [hcd2]; exact Bool.noConfusion
        · rw [hall b hb2]; exact Bool.noConfusion

lemma crewsToRotate_bounds (n : ℕ) (rand : ℚ) (h0 : 0 ≤ rand) (h1 : rand < 1) :
    (⌈(0.4 : ℚ) * n⌉).toNat ≤ crewsToRotateOf n rand ∧
    crewsToRotateOf n rand ≤ (⌈(0.6 : ℚ) * n⌉).toNat ∧
    crewsToRotateOf n rand ≤ n := by
  have hn : (0:ℚ) ≤ (n : ℚ) := Nat.cast_nonneg n
  have e1 : (0.4 : ℚ) * n ≤ (n : ℚ) * (0.4 + rand * 0.2) := by nlinarith
  have e2 : (n : ℚ) * (0.4 + rand * 0.2) ≤ (0.6 : ℚ) * n := by nlinarith
  have e3 : (n : ℚ) * (0.4 + rand * 0.2) ≤ (n : ℚ) := by nlinarith
  refine ⟨Int.toNat_le_toNat (Int.ceil_le_ceil e1), Int.toNat_le_toNat (Int.ceil_le_ceil e2), ?_⟩
  have hc := Int.ceil_le_ceil e3
  rw [Int.ceil_natCast] at hc
  calc crewsToRotateOf n rand ≤ ((n : ℤ)).toNat := Int.toNat_le_toNat hc
    _ = n := Int.toNat_natCast n

/-! ## Anchor block lemmas -/

lemma anchorPlanPart_used_length (currentCrews : List CrewLocation) (A : List Zone)
    (dz : List String) : (anchorPlanPart currentCrews A dz).2.length ≤ 1 := by
  simp only [anchorPlanPart]
  cases currentCrews.find? (fun c => some c.crew_id == anchorCrewIdOf currentCrews A) with
  | none => simp
  | some ac =>
    rcases Bool.eq_false_or_eq_true (dz.contains ac.zone_id) with h | h
    · simp only [h, if_true]
      cases A.filter (fun z => z.type == "primary" && !dz.contains z.id) with
      | nil => simp
      | cons z zs => simp
    · simp only [h]
      simp

lemma anchorPlanPart_stay (currentCrews : List CrewLocation) (A : List Zone)
    (dz : List String) (ac : CrewLocation)
    (h2 : currentCrews.find? (fun c => some c.crew_id == anchorCrewIdOf currentCrews A)
      = some ac)
    (h3 : dz.contains ac.zone_id = false) :
    anchorPlanPart currentCrews A dz =
      ([⟨ac.crew_id, ac.zone_id, ac.estimated_size⟩], [ac.zone_id]) := by
  simp only [anchorPlanPart, h2, h3]
  simp

lemma anchorPlanPart_entry_src (currentCrews : List CrewLocation) (A : List Zone)
    (dz : List String) :
    ∀ e ∈ (anchorPlanPart currentCrews A dz).1, ∃ c ∈ currentCrews,
      e.crew_id = c.crew_id ∧ e.estimated_size = c.estimated_size := by
  simp only [anchorPlanPart]
  cases hf : currentCrews.find? (fun c => some c.crew_id == anchorCrewIdOf currentCrews A) with
  | none => simp
  | some ac =>
    have hmem := List.mem_of_find?_eq_some hf
    rcases Bool.eq_false_or_eq_true (dz.contains ac.zone_id) with h | h
    · simp only [h, if_true]
      cases A.filter (fun z => z.type == "primary" && !dz.contains z.id) with
      | nil => simp
      | cons z zs =>
        intro e he
        rw [List.mem_singleton.mp he]
        exact ⟨ac, hmem, rfl, rfl⟩
    · simp only [h, Bool.false_eq_true, if_false]
      intro e he
      rw [List.mem_singleton.mp he]
      exact ⟨ac, hmem, rfl, rfl⟩

/-- C10: every entry of a rotation plan produced by `calculateRotation`
carries the same `estimated_size` as the corresponding input crew record —
rotation changes only zone assignments, never any crew's size. -/
theorem C10_plan_preserves_sizes (currentCrews : List CrewLocation) (A : List Zone)
    (dz : List String) (rand : ℚ) (rs : ℕ → ℚ) :
    ∀ e ∈ calculateRotation currentCrews A dz rand rs,
      ∃ c ∈ currentCrews, e.crew_id = c.crew_id ∧ e.estimated_size = c.estimated_size := by
  intro e he
  have he2 : e ∈ (anchorPlanPart currentCrews A dz).1 ++
      supportPlan currentCrews A dz rand rs := he
  rcases List.mem_append.mp he2 with h1 | h2
  · exact anchorPlanPart_entry_src currentCrews A dz e h1
  · have h3 : e ∈ (List.foldl
        (rotStep A dz (crewsToRotateOf (rotatableOf currentCrews A).length rand) rs)
        (0, (anchorPlanPart currentCrews A dz).2, [])
        (sortedOthers currentCrews A dz)).2.2 := h2
    rcases foldl_rotStep_entries A dz
        (crewsToRotateOf (rotatableOf currentCrews A).length rand) rs
        (sortedOthers currentCrews A dz)
        (0, (anchorPlanPart currentCrews A dz).2, []) e h3 with hacc | ⟨c, hc, hid, hsz⟩
    · exact absurd hacc (List.not_mem_nil e)
    · have hrot : c ∈ rotatableOf currentCrews A :=
        (sortLe_perm (crewPriorityLe dz) (rotatableOf currentCrews A)).mem_iff.mp hc
      exact ⟨c, (List.mem_filter.mp hrot).1, hid, hsz⟩

/-- C10 witness: the size-preservation applied to the concrete one-crew
scenario, whose plan is the single stay-in-place entry. -/
theorem C10_plan_preserves_sizes_witness :
    ∃ c ∈ c10Crews, (⟨1, "Z1", 100⟩ : RotationPlan).crew_id = c.crew_id ∧
      (⟨1, "Z1", 100⟩ : RotationPlan).estimated_size = c.estimated_size := by
  have hplan : calculateRotation c10Crews c10Zones [] 0 (fun _ => 0)
      = [⟨1, "Z1", 100⟩] := rfl
  exact C10_plan_preserves_sizes c10Crews c10Zones [] 0 (fun _ => 0) ⟨1, "Z1", 100⟩
    (by rw [hplan]; exact List.mem_singleton_self _)

/-- C1 counterexample: the single crew 1 is the designated anchor (second
conjunct) and its zone `Z1` carries only a `high` severity signal — no zone
is critical (third conjunct) — yet the produced plan moves the anchor to
`Z2`: the anchor is in the moved set although its zone's severity is not
`critical`, because the planner treats `high` and `critical` alike in its
danger set. -/
theorem C1_cex :
    rotateCrewsPlan c1Crews c1Zones c1Police 0 (fun _ => 0) = [⟨1, "Z2", 100⟩] ∧
    anchorCrewIdOf c1Crews (assignableZonesOf c1Zones c1Police) = some 1 ∧
    criticalZonesOf c1Police = [] :=
  ⟨rfl, rfl, rfl⟩

/-- C1 (amended): the designated anchor crew is never in the moved set of a
rotation plan unless its current zone carries an active `high` or `critical`
danger signal (the planner's danger set): when the anchor's zone is not in
the danger set, every plan entry for the anchor keeps it in its current
zone.  (A zone with a `critical` signal is excluded from the assignable
zones before anchor identification, so a designated anchor's zone severity
is at most `high`.) -/
theorem C1_anchor_moves_only_on_danger (currentCrews : List CrewLocation)
    (zones : List Zone) (policeActivity : List (String × String)) (rand : ℚ)
    (rs : ℕ → ℚ) (a : ℕ) (ac : CrewLocation)
    (h1 : anchorCrewIdOf currentCrews (assignableZonesOf zones policeActivity) = some a)
    (h2 : currentCrews.find? (fun c => some c.crew_id ==
      anchorCrewIdOf currentCrews (assignableZonesOf zones policeActivity)) = some ac)
    (h3 : (dangerZonesOf policeActivity).contains ac.zone_id = false) :
    ∀ e ∈ rotateCrewsPlan currentCrews zones policeActivity rand rs,
      e.crew_id = a → e.zone_id = ac.zone_id := by
  intro e he hid
  have he2 : e ∈ (anchorPlanPart currentCrews (assignableZonesOf zones policeActivity)
      (dangerZonesOf policeActivity)).1 ++ supportPlan currentCrews
      (assignableZonesOf zones policeActivity) (dangerZonesOf policeActivity) rand rs := he
  rcases List.mem_append.mp he2 with hA | hS
  · rw [anchorPlanPart_stay currentCrews (assignableZonesOf zones policeActivity)
      (dangerZonesOf policeActivity) ac h2 h3] at hA
    rw [List.mem_singleton.mp hA]
  · have hS2 : e ∈ (List.foldl
        (rotStep (assignableZonesOf zones policeActivity) (dangerZonesOf policeActivity)
          (crewsToRotateOf (rotatableOf currentCrews
            (assignableZonesOf zones policeActivity)).length rand) rs)
        (0, (anchorPlanPart currentCrews (assignableZonesOf zones policeActivity)
          (dangerZonesOf policeActivity)).2, [])
        (sortedOthers currentCrews (assignableZonesOf zones policeActivity)
          (dangerZonesOf policeActivity))).2.2 := hS
    rcases foldl_rotStep_entries _ _ _ _ _ _ e hS2 with hacc | ⟨c, hc, hid2, _⟩
    · exact absurd hacc (List.not_mem_nil e)
    · exfalso
      have hrot : c ∈ rotatableOf currentCrews (assignableZonesOf zones policeActivity) :=
        (sortLe_perm _ _).mem_iff.mp hc
      have hpred := (List.mem_filter.mp hrot).2
      rw [h1] at hpred
      have hca : c.crew_id = a := hid2.symm.trans hid
      rw [hca] at hpred
      simp at hpred

/-- C1 witness: the amended statement at a concrete danger-free scenario —
the anchor's single plan entry keeps it at `Z1`. -/
theorem C1_anchor_moves_only_on_danger_witness :
    (rotateCrewsPlan c1Crews c1Zones [] 0 (fun _ => 0)).all
      (fun e => !(e.crew_id == 1) || (e.zone_id == "Z1")) = true := by
  rw [List.all_eq_true]
  intro e he
  have key := C1_anchor_moves_only_on_danger c1Crews c1Zones [] 0 (fun _ => 0) 1
    ⟨1, "Z1", 100⟩ rfl rfl rfl e he
  by_cases h : e.crew_id = 1
  · have hz := key h
    simp [hz]
  · simp [h]

/-- C6 (amended): for every rotation cycle with `moveFraction = 0.4 +
0.2·rand`, `rand ∈ [0, 1)`, the quota `crewsToMove = ceil(moveFraction·n)`
over the `n` non-anchor crews lies within `[ceil(0.4·n), ceil(0.6·n)]`
(first conjunct); every non-anchor crew gets a plan entry (second);
non-anchor crews in danger zones are always moved (third); but danger crews
count against the quota — they occupy the front of the priority order — so
the number of moved non-anchor, non-danger crews equals `crewsToMove −
min(d, crewsToMove)` where `d` is the number of danger crews among the
others (fourth); it lies within the claimed `[ceil(0.4·n), ceil(0.6·n)]`
exactly when `d = 0`.  The zone-abundance hypothesis (`crews + 2` distinct
assignable zones) guarantees a selected crew always finds an unused target
zone. -/
theorem C6_quota_and_danger (currentCrews : List CrewLocation) (A : List Zone)
    (dz : List String) (rand : ℚ) (rs : ℕ → ℚ)
    (h0 : 0 ≤ rand) (h1 : rand < 1)
    (hrs : ∀ i, 0 ≤ rs i ∧ rs i < 1)
    (hA : (A.map Zone.id).Nodup)
    (hcap : currentCrews.length + 2 ≤ A.length) :
    ((⌈(0.4 : ℚ) * (rotatableOf currentCrews A).length⌉).toNat
        ≤ crewsToRotateOf (rotatableOf currentCrews A).length rand ∧
      crewsToRotateOf (rotatableOf currentCrews A).length rand
        ≤ (⌈(0.6 : ℚ) * (rotatableOf currentCrews A).length⌉).toNat) ∧
    (supportPlan currentCrews A dz rand rs).length = (rotatableOf currentCrews A).length ∧
    (∀ pr ∈ (sortedOthers currentCrews A dz).zip (supportPlan currentCrews A dz rand rs),
      dz.contains pr.1.zone_id = true → pr.2.zone_id ≠ pr.1.zone_id) ∧
    ((sortedOthers currentCrews A dz).zip (supportPlan currentCrews A dz rand rs)).countP
        (fun pr => !dz.contains pr.1.zone_id && pr.2.zone_id != pr.1.zone_id)
      = crewsToRotateOf (rotatableOf currentCrews A).length rand
        - min ((rotatableOf currentCrews A).countP fun c => dz.contains c.zone_id)
            (crewsToRotateOf (rotatableOf currentCrews A).length rand) := by
  have hkb := crewsToRotate_bounds (rotatableOf currentCrews A).length rand h0 h1
  have hrl : (rotatableOf currentCrews A).length ≤ currentCrews.length :=
    List.length_filter_le _ _
  have hsl : (sortedOthers currentCrews A dz).length = (rotatableOf currentCrews A).length :=
    (sortLe_perm _ _).length_eq
  obtain ⟨used2, entries, heq, hpf⟩ := foldl_rotStep_spec A dz
    (crewsToRotateOf (rotatableOf currentCrews A).length rand) rs hA hrs
    (sortedOthers currentCrews A dz) 0 (anchorPlanPart currentCrews A dz).2 []
    (by have := anchorPlanPart_used_length currentCrews A dz; omega)
    (by omega)
  have hsp : supportPlan currentCrews A dz rand rs = entries := by
    show (List.foldl
      (rotStep A dz (crewsToRotateOf (rotatableOf currentCrews A).length rand) rs)
      (0, (anchorPlanPart currentCrews A dz).2, [])
      (sortedOthers currentCrews A dz)).2.2 = entries
    rw [heq]
    exact List.nil_append entries
  refine ⟨⟨hkb.1, hkb.2.1⟩, ?_, ?_, ?_⟩
  · rw [hsp, plansFor_length _ _ _ _ _ hpf, hsl]
  · rw [hsp]
    exact plansFor_danger_moved _ _ _ _ _ hpf
  · rw [hsp, plansFor_count _ _ _ _ _ hpf]
    obtain ⟨D, N, hsplit, hD, hN, hlen⟩ := danger_split dz (sortedOthers currentCrews A dz)
      (sortedOthers_pairwise_danger currentCrews A dz)
    rw [hsplit, selCount_prefix_danger _ _ D N hD 0, selCount_nondanger _ _ N hN]
    have hd : D.length
        = (rotatableOf currentCrews A).countP (fun c => dz.contains c.zone_id) := by
      rw [hlen]
      exact (sortLe_perm _ _).countP_eq _
    have hlen2 : D.length + N.length = (sortedOthers currentCrews A dz).length := by
      rw [hsplit, List.length_append]
    have hk_le := hkb.2.2
    rw [← hd]
    omega

/-- C6 counterexample: three crews, crew 1 the anchor, two others of which
crew 2 sits in the danger zone `Z2`; with `moveFraction = 0.4` the quota is
`crewsToMove = ceil(0.4·2) = 1` (second conjunct), and that single slot is
consumed by the danger crew 2, so the number of moved non-anchor, non-danger
crews is 0 (first conjunct) — strictly below the claimed lower bound
`ceil(0.4·n) = 1`: danger moves are not additional to the quota. -/
theorem C6_cex :
    ((sortedOthers c6Crews c6Zones ["Z2"]).zip
        (supportPlan c6Crews c6Zones ["Z2"] 0 (fun _ => 0))).countP
      (fun pr => !(["Z2"].contains pr.1.zone_id) && pr.2.zone_id != pr.1.zone_id) = 0 ∧
    (⌈(0.4 : ℚ) * (rotatableOf c6Crews c6Zones).length⌉).toNat = 1 := by
  have hp : ∀ len, pickIdx 0 len = 0 := by
    intro len
    simp only [pickIdx]
    norm_num
  have hk : crewsToRotateOf (rotatableOf c6Crews c6Zones).length 0 = 1 := by
    show (⌈((2 : ℕ) : ℚ) * (0.4 + 0 * 0.2)⌉).toNat = 1
    rw [show ((2 : ℕ) : ℚ) * (0.4 + 0 * 0.2) = 4 / 5 by norm_num]
    rw [show ⌈(4 / 5 : ℚ)⌉ = 1 by rw [Int.ceil_eq_iff] <;> norm_num]
    rfl
  have ht1 : rotTarget c6Zones ["Z2"] 1 (fun _ => 0) 0 ["Z1"] ⟨2, "Z2", 50⟩ = "Z4" := by
    simp only [rotTarget, hp]
    decide
  have hstep1 : rotStep c6Zones ["Z2"] 1 (fun _ => 0) (0, ["Z1"], []) ⟨2, "Z2", 50⟩
      = (1, ["Z4", "Z1"], [⟨2, "Z4", 50⟩]) := by
    simp only [rotStep, ht1]
    decide
  have hstep2 : rotStep c6Zones ["Z2"] 1 (fun _ => 0) (1, ["Z4", "Z1"], [⟨2, "Z4", 50⟩])
      ⟨3, "Z3", 40⟩ = (2, ["Z3", "Z4", "Z1"], [⟨2, "Z4", 50⟩, ⟨3, "Z3", 40⟩]) := rfl
  have hfold : List.foldl (rotStep c6Zones ["Z2"] 1 (fun _ => 0)) (0, ["Z1"], [])
      [⟨2, "Z2", 50⟩, ⟨3, "Z3", 40⟩] = (2, ["Z3", "Z4", "Z1"],
        [⟨2, "Z4", 50⟩, ⟨3, "Z3", 40⟩]) := by
    rw [List.foldl_cons, hstep1, List.foldl_cons, hstep2, List.foldl_nil]
  have hplan : supportPlan c6Crews c6Zones ["Z2"] 0 (fun _ => 0)
      = [⟨2, "Z4", 50⟩, ⟨3, "Z3", 40⟩] := by
    show (List.foldl (rotStep c6Zones ["Z2"]
      (crewsToRotateOf (rotatableOf c6Crews c6Zones).length 0) (fun _ => 0))
      (0, (anchorPlanPart c6Crews c6Zones ["Z2"]).2, [])
      (sortedOthers c6Crews c6Zones ["Z2"])).2.2 = [⟨2, "Z4", 50⟩, ⟨3, "Z3", 40⟩]
    rw [hk]
    show (List.foldl (rotStep c6Zones ["Z2"] 1 (fun _ => 0)) (0, ["Z1"], [])
      [⟨2, "Z2", 50⟩, ⟨3, "Z3", 40⟩]).2.2 = [⟨2, "Z4", 50⟩, ⟨3, "Z3", 40⟩]
    rw [hfold]
  constructor
  · rw [hplan]
    decide
  · show (⌈(0.4 : ℚ) * ((2 : ℕ) : ℚ)⌉).toNat = 1
    rw [show (0.4 : ℚ) * ((2 : ℕ) : ℚ) = 4 / 5 by norm_num]
    rw [show ⌈(4 / 5 : ℚ)⌉ = 1 by rw [Int.ceil_eq_iff] <;> norm_num]
    rfl

/-- C6 witness: the amended quota statement at the concrete danger-free
scenario (three crews, five distinct assignable zones, `rand = 0`). -/
theorem C6_quota_and_danger_witness :
    ((⌈(0.4 : ℚ) * (rotatableOf c6Crews c6Zones).length⌉).toNat
        ≤ crewsToRotateOf (rotatableOf c6Crews c6Zones).length 0 ∧
      crewsToRotateOf (rotatableOf c6Crews c6Zones).length 0
        ≤ (⌈(0.6 : ℚ) * (rotatableOf c6Crews c6Zones).length⌉).toNat) ∧
    (supportPlan c6Crews c6Zones [] 0 (fun _ => 0)).length
      = (rotatableOf c6Crews c6Zones).length ∧
    (∀ pr ∈ (sortedOthers c6Crews c6Zones []).zip
        (supportPlan c6Crews c6Zones [] 0 (fun _ => 0)),
      List.contains [] pr.1.zone_id = true → pr.2.zone_id ≠ pr.1.zone_id) ∧
    ((sortedOthers c6Crews c6Zones []).zip
        (supportPlan c6Crews c6Zones [] 0 (fun _ => 0))).countP
        (fun pr => !List.contains [] pr.1.zone_id && pr.2.zone_id != pr.1.zone_id)
      = crewsToRotateOf (rotatableOf c6Crews c6Zones).length 0
        - min ((rotatableOf c6Crews c6Zones).countP fun c => List.contains [] c.zone_id)
            (crewsToRotateOf (rotatableOf c6Crews c6Zones).length 0) :=
  C6_quota_and_danger c6Crews c6Zones [] 0 (fun _ => 0) (le_refl 0) (by norm_num)
    (fun i => ⟨le_refl 0, by norm_num⟩) (by decide) (by decide)
